import Mathlib

/-!
Shallow embedding of `src/app.py` (FastAPI + SendGrid email relay) and
verification of the specification's claims about it.

Modelling conventions:
* Python strings are Lean `String`s; character-level work is done on `String.data`.
* Python's `str.strip()` is `pyStrip` (ASCII whitespace; the exotic Unicode
  whitespace code points Python also strips never matter to any claim).
* JSON values are the inductive `Json`; Python truthiness is `Json.isTruthy`.
* Exceptions raised inside the `try:` block of `send_email` are modelled with
  `Except`; the `except Exception` handler is the wrapper in `send_email`.
* The SendGrid network call `sg.send(mail)` is external: its outcome is an
  input `provider : Except String Nat` (error detail, or HTTP status code).
* Timestamps (`datetime.utcnow()`) are not modelled; no claim mentions them.
-/

namespace TCfit

/-- ASCII whitespace stripped by Python's `str.strip()` (space, `\t`, `\n`,
`\r`, `\x0b`, `\x0c`). -/
def isPySpace (c : Char) : Bool :=
  c == ' ' || c == '\t' || c == '\n' || c == '\r' || c == '\x0B' || c == '\x0C'

/-- Python `s.strip()`: remove leading and trailing whitespace. -/
def pyStrip (s : String) : String :=
  String.mk (((s.data.dropWhile isPySpace).reverse.dropWhile isPySpace).reverse)

/-- Python `s.startswith(pre)`. -/
def pyStartswith (s pre : String) : Bool :=
  pre.data.isPrefixOf s.data

/-- Python `nee in hay` (substring containment). -/
def containsSub (hay nee : List Char) : Bool :=
  (List.range (hay.length + 1)).any fun i => nee.isPrefixOf (hay.drop i)

/-- Python `nee in hay` on strings. -/
def strContains (hay nee : String) : Bool :=
  containsSub hay.data nee.data

/-! ## validate_email (src/app.py lines 58-61)

```python
def validate_email(email):
    pattern = r'^[a-zA-Z0-9._%+-]+@[a-zA-Z0-9.-]+\.[a-zA-Z]{2,}$'
    return re.match(pattern, email) is not None
```
-/

/-- Character class `[a-zA-Z0-9._%+-]` (local part). -/
def isLocalChar (c : Char) : Bool :=
  c.isAlpha || c.isDigit || c == '.' || c == '_' || c == '%' || c == '+' || c == '-'

/-- Character class `[a-zA-Z0-9.-]` (domain part). -/
def isDomainChar (c : Char) : Bool :=
  c.isAlpha || c.isDigit || c == '.' || c == '-'

/-- Whole-string match of the pattern `[a-zA-Z0-9._%+-]+@[a-zA-Z0-9.-]+\.[a-zA-Z]{2,}`:
there are positions `i` (of the `@`) and `j` (of the final `.`) decomposing the
string as  nonempty-local ++ `@` ++ nonempty-domain ++ `.` ++ (two or more letters). -/
def matchesEmailPattern (l : List Char) : Bool :=
  (List.range l.length).any fun i =>
    (List.range l.length).any fun j =>
      decide (0 < i) && decide (i + 1 < j) &&
      (l.take i).all isLocalChar &&
      ((l.drop i).take 1 == ['@']) &&
      (((l.drop (i + 1)).take (j - (i + 1))).all isDomainChar) &&
      ((l.drop j).take 1 == ['.']) &&
      decide (2 ≤ (l.drop (j + 1)).length) &&
      (l.drop (j + 1)).all Char.isAlpha

/-- `re.match(pattern, email) is not None`.  The pattern is anchored with `^...$`;
in Python, `$` (without `re.MULTILINE`) matches at the end of the string *or just
before a newline at the end of the string*, so a single trailing `'\n'` after a
matching string is also accepted. -/
def validate_email (email : String) : Bool :=
  matchesEmailPattern email.data ||
    (email.data.getLast? == some '\n' && matchesEmailPattern email.data.dropLast)

/-! ## create_email_with_button (src/app.py lines 63-195) -/

/-- `get_smart_button_text` (lines 67-78): contextual button label from the URL. -/
def get_smart_button_text (url : String) : String :=
  if strContains url "thethinkfit.in/invite" then "Join ThinkFit"
  else if strContains url "thethinkfit.in" then "Open ThinkFit"
  else if strContains url "document" || strContains url "doc" then "View Document"
  else if strContains url "share" || strContains url "shared" then "View Shared Content"
  else "Open Link"

/-- `content.replace('\n', '<br>')` (line 81).  The pattern is a single
character, so the replacement rewrites each `'\n'` occurrence independently. -/
def replaceNl : List Char → List Char
  | [] => []
  | c :: rest => (if c = '\n' then ['<', 'b', 'r', '>'] else [c]) ++ replaceNl rest

/-- Line-break conversion on strings (`html_content` of line 81). -/
def nl2br (s : String) : String :=
  String.mk (replaceNl s.data)

/-- The green ThinkFit-brand gradient (line 91). -/
def greenGradient : String :=
  "background: linear-gradient(135deg, #4CAF50 0%, #45a049 100%);"

/-- The default purple/blue gradient (line 95). -/
def purpleGradient : String :=
  "background: linear-gradient(135deg, #667eea 0%, #764ba2 100%);"

/-- Gradient selection (lines 89-96): brand substring gets the green gradient. -/
def gradientFor (button_link : String) : String :=
  if strContains button_link "thethinkfit.in" then greenGradient else purpleGradient

/-- Shadow RGB selection (lines 89-96), same test as the gradient. -/
def shadowFor (button_link : String) : String :=
  if strContains button_link "thethinkfit.in" then "76, 175, 80" else "102, 126, 234"

/-- Literal segments of the `button_html` f-string (lines 98-120), split at the
interpolation points `{button_link}`, `{gradient}`, `{shadow_color}` (three
occurrences) and `{button_text}`. -/
def bSeg0 : String :=
  "\n        <div style=\"margin: 30px 0; text-align: center;\">\n            <a href=\""

def bSeg1 : String :=
  "\" style=\"\n                display: inline-block;\n                padding: 14px 35px;\n                "

def bSeg2 : String :=
  "\n                color: white;\n                text-decoration: none;\n                border-radius: 30px;\n                font-family: Arial, sans-serif;\n                font-size: 16px;\n                font-weight: 600;\n                box-shadow: 0 4px 15px rgba("

def bSeg3 : String :=
  ", 0.3);\n                transition: all 0.3s ease;\n                border: none;\n                cursor: pointer;\n                min-width: 180px;\n            \" onmouseover=\"this.style.transform=\x27translateY(-2px)\x27; this.style.boxShadow=\x270 6px 20px rgba("

def bSeg4 : String :=
  ", 0.4)\x27;\" \n               onmouseout=\"this.style.transform=\x27translateY(0)\x27; this.style.boxShadow=\x270 4px 15px rgba("

def bSeg5 : String :=
  ", 0.3)\x27;\">\n                "

def bSeg6 : String :=
  "\n            </a>\n        </div>\n        "

/-- The `button_html` value (lines 84-120): empty string when `button_link` is
falsy (empty), otherwise the styled anchor block with the contextual label and
palette. -/
def button_html (button_link : String) : String :=
  if button_link = "" then ""
  else
    bSeg0 ++ button_link ++ bSeg1 ++ gradientFor button_link ++ bSeg2 ++
      shadowFor button_link ++ bSeg3 ++ shadowFor button_link ++ bSeg4 ++
      shadowFor button_link ++ bSeg5 ++ get_smart_button_text button_link ++ bSeg6

/-- The `html_email` f-string (lines 123-193) up to the `{html_content}`
interpolation. -/
def htmlPre : String :=
  "\n    <!DOCTYPE html>\n    <html lang=\"en\">\n    <head>\n        <meta charset=\"UTF-8\">\n        <meta name=\"viewport\" content=\"width=device-width, initial-scale=1.0\">\n        <title>ThinkFit Notification</title>\n    </head>\n    <body style=\"\n        font-family: Arial, sans-serif;\n        line-height: 1.6;\n        color: #333;\n        max-width: 600px;\n        margin: 0 auto;\n        padding: 20px;\n        background-color: #f5f5f5;\n    \">\n        <div style=\"\n            background-color: white;\n            padding: 40px 30px;\n            border-radius: 12px;\n            box-shadow: 0 4px 20px rgba(0,0,0,0.1);\n            border-top: 4px solid #4CAF50;\n        \">\n            <!-- ThinkFit Header -->\n            <div style=\"text-align: center; margin-bottom: 30px;\">\n                <h2 style=\"\n                    color: #4CAF50;\n                    margin: 0;\n                    font-size: 24px;\n                    font-weight: 700;\n                \">ThinkFit</h2>\n                <p style=\"\n                    color: #888;\n                    margin: 5px 0 0 0;\n                    font-size: 14px;\n                \">Fitness. Competition. Success.</p>\n            </div>\n            \n            <!-- Email Content -->\n            <div style=\"\n                font-size: 16px;\n                line-height: 1.6;\n                color: #555;\n                text-align: center;\n            \">\n                "

/-- The `html_email` f-string between `{html_content}` and `{button_html}`. -/
def htmlMid : String :=
  "\n            </div>\n            \n            <!-- Button (if provided) -->\n            "

/-- The `html_email` f-string after `{button_html}`. -/
def htmlEnd : String :=
  "\n            \n            <!-- Footer -->\n            <div style=\"\n                margin-top: 40px;\n                padding-top: 25px;\n                border-top: 1px solid #eee;\n                font-size: 14px;\n                color: #888;\n                text-align: center;\n            \">\n                <p style=\"margin: 0;\">Best regards,</p>\n                <p style=\"margin: 5px 0 0 0; font-weight: 600; color: #4CAF50;\">The ThinkFit Team</p>\n                <p style=\"margin: 15px 0 0 0; font-size: 12px; color: #aaa;\">\n                    Start your fitness journey today!\n                </p>\n            </div>\n        </div>\n    </body>\n    </html>\n    "

/-- Everything the template places after the content region: the fixed markup,
the optional button block, and the fixed footer. -/
def wrapSuffix (button_link : String) : String :=
  htmlMid ++ button_html button_link ++ htmlEnd

/-- `create_email_with_button(content, button_link)` (lines 63-195).  In the
endpoint, `button_link` is always a string, `''` standing for "no button"
(Python truthiness of the empty string). -/
def create_email_with_button (content : String) (button_link : String) : String :=
  htmlPre ++ nl2br content ++ wrapSuffix button_link

/-! ## Request data and the `/send-email` handler (src/app.py lines 209-348) -/

/-- JSON values, as produced by `await request.json()` (numbers restricted to
integers; no claim involves floats). -/
inductive Json where
  | null
  | bool (b : Bool)
  | num (n : Int)
  | str (s : String)
  | arr (elems : List Json)
  | obj (fields : List (String × Json))

/-- Python type name, as it appears in `AttributeError` messages. -/
def Json.typeName : Json → String
  | .null => "NoneType"
  | .bool _ => "bool"
  | .num _ => "int"
  | .str _ => "str"
  | .arr _ => "list"
  | .obj _ => "dict"

/-- Python truthiness of a JSON value (`if not data:`). -/
def Json.isTruthy : Json → Bool
  | .null => false
  | .bool b => b
  | .num n => n != 0
  | .str s => s != ""
  | .arr elems => !elems.isEmpty
  | .obj fields => !fields.isEmpty

/-- Dictionary lookup.  `json.loads` keeps the last value for a duplicated key,
so lookup searches the reversed field list. -/
def jlookup (o : List (String × Json)) (k : String) : Option Json :=
  o.reverse.lookup k

/-- Exceptions that can be raised inside the handler's `try:` block. -/
inductive PyExc where
  /-- `AttributeError` from `.get` on a non-dict or `.strip` on a non-string. -/
  | attributeError (detail : String)
  /-- `json.JSONDecodeError` from `await request.json()` on an absent or
  unparseable body. -/
  | jsonDecodeError (detail : String)
  /-- Exception raised by `sg.send(mail)` (network, auth, provider-side). -/
  | providerError (detail : String)

/-- `str(e)` for the exception, as interpolated into the 500 response. -/
def PyExc.message : PyExc → String
  | .attributeError d => d
  | .jsonDecodeError d => d
  | .providerError d => d

/-- `data.get(k, '').strip()` (lines 244-249): `.get` raises `AttributeError`
on a non-dict; `.strip` raises `AttributeError` on a present non-string value
(the default `''` strips to `''` when the key is absent). -/
def getStripped (data : Json) (k : String) : Except PyExc String :=
  match data with
  | .obj o =>
    match jlookup o k with
    | none => .ok (pyStrip "")
    | some (.str s) => .ok (pyStrip s)
    | some v =>
      .error (.attributeError ("\x27" ++ v.typeName ++ "\x27 object has no attribute \x27strip\x27"))
  | d => .error (.attributeError ("\x27" ++ d.typeName ++ "\x27 object has no attribute \x27get\x27"))

/-- Lines 250-251: a truthy `button_link` not starting with `'http'` is reset
to the empty string (treated as absent). -/
def effectiveLink (button_link : String) : String :=
  if button_link != "" && !(pyStartswith button_link "http") then "" else button_link

/-- `ClickTracking(enable=False, enable_text=False)`. -/
structure ClickTracking where
  enable : Bool
  enable_text : Bool
deriving DecidableEq

/-- `OpenTracking(enable=False)`. -/
structure OpenTracking where
  enable : Bool
deriving DecidableEq

/-- `TrackingSettings` with its click and open sub-settings. -/
structure TrackingSettings where
  click_tracking : ClickTracking
  open_tracking : OpenTracking
deriving DecidableEq

/-- The SendGrid `Mail` object handed to `sg.send` (lines 304-317). -/
structure Mail where
  from_email : String
  to_email : String
  subject : String
  content : String
  tracking_settings : TrackingSettings
deriving DecidableEq

/-- The tracking settings installed on every outgoing mail (lines 311-317). -/
def disabledTracking : TrackingSettings :=
  { click_tracking := { enable := false, enable_text := false },
    open_tracking := { enable := false } }

/-- Mail construction in `send_email` (lines 304-317): fixed subject
`"Shared Content"`, HTML body from `create_email_with_button`, tracking
explicitly disabled. -/
def mkMail (from_email to_email content button_link : String) : Mail :=
  { from_email := from_email, to_email := to_email, subject := "Shared Content",
    content := create_email_with_button content button_link,
    tracking_settings := disabledTracking }

/-- The `data` object of a 200 success response (lines 329-335; the timestamp
field is not modelled). -/
structure RespData where
  from_email : String
  to_email : String
  has_button : Bool
  status_code : Nat
deriving DecidableEq

/-- A JSON HTTP response of the endpoint: status code plus the
`{success, message, data?}` envelope. -/
structure Response where
  status : Nat
  success : Bool
  message : String
  data : Option RespData
deriving DecidableEq

/-- An error response `{"success": False, "message": msg}` with the given
HTTP status code. -/
def jsonErr (status : Nat) (msg : String) : Response :=
  { status := status, success := false, message := msg, data := none }

/-- The 200 success response (lines 325-338); `has_button` is
`bool(button_link)`. -/
def successResponse (from_email to_email button_link : String) (code : Nat) : Response :=
  { status := 200, success := true, message := "Email sent successfully",
    data := some { from_email := from_email, to_email := to_email,
                   has_button := button_link != "", status_code := code } }

/-- The `except Exception` handler (lines 340-348). -/
def excResponse (e : PyExc) : Response :=
  jsonErr 500 ("Failed to send email: " ++ e.message)

/-- The request body as the handler receives it: either raw bytes that fail
JSON parsing (with the decoder's error text), or a parsed JSON value. -/
inductive ReqBody where
  | malformed (detail : String)
  | parsed (data : Json)

/-- The `try:` block of `send_email` (lines 221-338).  `Except.error` is a
raised exception, paired with the mail already handed to `sg.send` when the
raise happens after dispatch (only the provider call does).  `provider` is the
outcome of `sg.send(mail)`. -/
def send_email_try (sgConfigured : Bool) (body : ReqBody) (provider : Except String Nat) :
    Except (PyExc × Option Mail) (Response × Option Mail) :=
  if sgConfigured = false then
    .ok (jsonErr 500 "SendGrid not configured. Please check SENDGRID_API_KEY environment variable.", none)
  else
    match body with
    | .malformed detail => .error (.jsonDecodeError detail, none)
    | .parsed data =>
      if data.isTruthy = false then
        .ok (jsonErr 400 "No JSON data provided", none)
      else
        match getStripped data "from_email" with
        | .error e => .error (e, none)
        | .ok from_email =>
          match getStripped data "to_email" with
          | .error e => .error (e, none)
          | .ok to_email =>
            match getStripped data "content" with
            | .error e => .error (e, none)
            | .ok content =>
              match getStripped data "button_link" with
              | .error e => .error (e, none)
              | .ok rawLink =>
                let button_link := effectiveLink rawLink
                if from_email = "" then .ok (jsonErr 400 "from_email is required", none)
                else if to_email = "" then .ok (jsonErr 400 "to_email is required", none)
                else if content = "" then .ok (jsonErr 400 "content is required", none)
                else if validate_email from_email = false then
                  .ok (jsonErr 400 "Invalid from_email format", none)
                else if validate_email to_email = false then
                  .ok (jsonErr 400 "Invalid to_email format", none)
                else
                  let mail := mkMail from_email to_email content button_link
                  match provider with
                  | .error detail => .error (.providerError detail, some mail)
                  | .ok code => .ok (successResponse from_email to_email button_link code, some mail)

/-- `POST /send-email` (lines 209-348): the `try:` block with the
`except Exception` handler wrapped around it.  Returns the HTTP response and
the mail handed to `sg.send`, when one was. -/
def send_email (sgConfigured : Bool) (body : ReqBody) (provider : Except String Nat) :
    Response × Option Mail :=
  match send_email_try sgConfigured body provider with
  | .ok r => r
  | .error (e, m) => (excResponse e, m)

/-- The `GET /health` response body (lines 197-207; timestamp not modelled). -/
structure HealthResponse where
  http_status : Nat
  status : String
  sendgrid_configured : Bool
deriving DecidableEq

/-- `GET /health` (lines 197-207). -/
def health_check (sgConfigured : Bool) : HealthResponse :=
  { http_status := 200, status := "running", sendgrid_configured := sgConfigured }

/-! ## Derived notions used to state the claims -/

/-- The key is absent from the body, or mapped to a JSON string — exactly the
condition under which `data.get(k, '').strip()` does not raise. -/
def strOrAbsent (o : List (String × Json)) (k : String) : Prop :=
  jlookup o k = none ∨ ∃ s, jlookup o k = some (Json.str s)

/-- The key is present with a non-string value, so `.strip()` raises. -/
def badField (o : List (String × Json)) (k : String) : Prop :=
  ∃ v, jlookup o k = some v ∧ ∀ s, v ≠ Json.str s

/-- The raw string value of a field (`data.get(k, '')` when it does not raise). -/
def rawField (o : List (String × Json)) (k : String) : String :=
  match jlookup o k with
  | some (Json.str s) => s
  | _ => ""

/-- The stripped string value of a field (`data.get(k, '').strip()`). -/
def strippedField (o : List (String × Json)) (k : String) : String :=
  pyStrip (rawField o k)

/-- Lines 250-338 of the handler as a function of the four stripped fields:
the validation chain in source order, then mail construction and dispatch,
with the `except Exception` handler already applied to a provider failure.
`send_email` on a well-formed body reduces to this (see
`send_email_unfold_obj`). -/
def sendCore (from_email to_email content rawLink : String) (provider : Except String Nat) :
    Response × Option Mail :=
  let button_link := effectiveLink rawLink
  if from_email = "" then (jsonErr 400 "from_email is required", none)
  else if to_email = "" then (jsonErr 400 "to_email is required", none)
  else if content = "" then (jsonErr 400 "content is required", none)
  else if validate_email from_email = false then (jsonErr 400 "Invalid from_email format", none)
  else if validate_email to_email = false then (jsonErr 400 "Invalid to_email format", none)
  else
    let mail := mkMail from_email to_email content button_link
    match provider with
    | .error detail => (excResponse (.providerError detail), some mail)
    | .ok code => (successResponse from_email to_email button_link code, some mail)

/-- Strip the fixed HTML wrapper from a rendered body: drop the fixed prefix
and the fixed suffix (closing markup, optional button block, footer) by their
lengths, leaving the content region. -/
def stripWrapper (html : String) (button_link : String) : String :=
  String.mk ((html.data.drop htmlPre.data.length).take
    (html.data.length - htmlPre.data.length - (wrapSuffix button_link).data.length))

/-- Modelled from the spec: "`button_link`, if present, must start with an
HTTP(S) scheme" — a string starts with an HTTP(S) scheme when it starts with
`http://` or `https://`.  Used only to compare the spec's wording with the
code's `startswith('http')` prefix check. -/
def hasHttpScheme (s : String) : Bool :=
  pyStartswith s "http://" || pyStartswith s "https://"

/-! # Helper lemmas -/

theorem string_data_append (s t : String) : (s ++ t).data = s.data ++ t.data := rfl

theorem pyStartswith_append (s t : String) : pyStartswith (s ++ t) s = true := by
  unfold pyStartswith
  rw [string_data_append, List.isPrefixOf_iff_prefix]
  exact ⟨t.data, rfl⟩

theorem containsSub_correct (hay nee : List Char) :
    containsSub hay nee = true ↔ nee <:+: hay := by
  unfold containsSub
  rw [List.any_eq_true]
  constructor
  · rintro ⟨i, _, hp⟩
    rw [List.isPrefixOf_iff_prefix] at hp
    exact hp.isInfix.trans (List.drop_suffix i hay).isInfix
  · rintro ⟨s, t, rfl⟩
    refine ⟨s.length, ?_, ?_⟩
    · rw [List.mem_range]
      simp [List.length_append]
      omega
    · rw [List.isPrefixOf_iff_prefix, List.append_assoc, List.drop_left]
      exact ⟨t, rfl⟩

theorem strContains_trans {url a b : String} (hab : strContains a b = true)
    (h : strContains url a = true) : strContains url b = true := by
  unfold strContains at *
  rw [containsSub_correct] at *
  exact hab.trans h

theorem getStripped_strOrAbsent {o : List (String × Json)} {k : String}
    (h : strOrAbsent o k) : getStripped (Json.obj o) k = .ok (strippedField o k) := by
  rcases h with h | ⟨s, h⟩ <;> simp [getStripped, strippedField, rawField, h]

theorem not_badField_of_ok {o : List (String × Json)} {k s : String}
    (h : getStripped (Json.obj o) k = .ok s) : ¬ badField o k := by
  rintro ⟨v, hv, hs⟩
  cases v <;> simp [getStripped, hv] at h
  exact hs _ rfl

theorem getStripped_badField {o : List (String × Json)} {k : String} {v : Json}
    (hv : jlookup o k = some v) (hs : ∀ s, v ≠ Json.str s) :
    getStripped (Json.obj o) k =
      .error (.attributeError ("\x27" ++ v.typeName ++ "\x27 object has no attribute \x27strip\x27")) := by
  cases v
  case str s => exact absurd rfl (hs s)
  all_goals simp [getStripped, hv]

theorem isTruthy_obj {o : List (String × Json)} (h : o ≠ []) :
    (Json.obj o).isTruthy = true := by
  simp [Json.isTruthy, List.isEmpty_iff, h]

theorem ne_nil_of_jlookup {o : List (String × Json)} {k : String} {v : Json}
    (h : jlookup o k = some v) : o ≠ [] := by
  rintro rfl
  simp [jlookup, List.lookup] at h

/-- On a truthy object body, `send_email` is field extraction in source order
(each step may raise) followed by `sendCore`. -/
theorem send_email_unfold_obj (o : List (String × Json)) (provider : Except String Nat)
    (hne : o ≠ []) :
    send_email true (.parsed (.obj o)) provider =
      match getStripped (.obj o) "from_email" with
      | .error e => (excResponse e, none)
      | .ok from_email =>
        match getStripped (.obj o) "to_email" with
        | .error e => (excResponse e, none)
        | .ok to_email =>
          match getStripped (.obj o) "content" with
          | .error e => (excResponse e, none)
          | .ok content =>
            match getStripped (.obj o) "button_link" with
            | .error e => (excResponse e, none)
            | .ok rawLink => sendCore from_email to_email content rawLink provider := by
  have htru := isTruthy_obj hne
  unfold send_email send_email_try
  simp only [htru, Bool.true_eq_false, if_false]
  rcases h1 : getStripped (Json.obj o) "from_email" with e1 | fe <;>
    simp only [h1] <;> try rfl
  rcases h2 : getStripped (Json.obj o) "to_email" with e2 | te <;>
    simp only [h2] <;> try rfl
  rcases h3 : getStripped (Json.obj o) "content" with e3 | ce <;>
    simp only [h3] <;> try rfl
  rcases h4 : getStripped (Json.obj o) "button_link" with e4 | bl <;>
    simp only [h4] <;> try rfl
  unfold sendCore
  split_ifs <;> try rfl
  cases provider <;> rfl

/-- On a truthy object body whose four fields are strings or absent,
`send_email` is `sendCore` of the stripped field values. -/
theorem send_email_fields (o : List (String × Json)) (provider : Except String Nat)
    (hne : o ≠ []) (hf : strOrAbsent o "from_email") (ht : strOrAbsent o "to_email")
    (hc : strOrAbsent o "content") (hb : strOrAbsent o "button_link") :
    send_email true (.parsed (.obj o)) provider =
      sendCore (strippedField o "from_email") (strippedField o "to_email")
        (strippedField o "content") (strippedField o "button_link") provider := by
  rw [send_email_unfold_obj o provider hne, getStripped_strOrAbsent hf,
    getStripped_strOrAbsent ht, getStripped_strOrAbsent hc, getStripped_strOrAbsent hb]

/-- `sendCore` on fully valid fields dispatches the mail and returns 200. -/
theorem sendCore_success (fe te ce bl0 : String) (code : Nat)
    (h1 : fe ≠ "") (h2 : te ≠ "") (h3 : ce ≠ "")
    (h4 : validate_email fe = true) (h5 : validate_email te = true) :
    sendCore fe te ce bl0 (.ok code) =
      (successResponse fe te (effectiveLink bl0) code,
        some (mkMail fe te ce (effectiveLink bl0))) := by
  simp [sendCore, h1, h2, h3, h4, h5]

/-! # Claims -/

/-- C4: the button label is chosen by substring match in priority order —
link contains `thethinkfit.in/invite` → "Join ThinkFit"; else contains
`thethinkfit.in` → "Open ThinkFit"; else contains `document` or `doc` →
"View Document"; else contains `share` or `shared` → "View Shared Content";
else "Open Link" — first match wins, no fallthrough. -/
theorem C4_theorem (url : String) :
    (strContains url "thethinkfit.in/invite" = true →
      get_smart_button_text url = "Join ThinkFit") ∧
    (strContains url "thethinkfit.in/invite" = false →
      strContains url "thethinkfit.in" = true →
      get_smart_button_text url = "Open ThinkFit") ∧
    (strContains url "thethinkfit.in/invite" = false →
      strContains url "thethinkfit.in" = false →
      (strContains url "document" = true ∨ strContains url "doc" = true) →
      get_smart_button_text url = "View Document") ∧
    (strContains url "thethinkfit.in/invite" = false →
      strContains url "thethinkfit.in" = false →
      strContains url "document" = false → strContains url "doc" = false →
      (strContains url "share" = true ∨ strContains url "shared" = true) →
      get_smart_button_text url = "View Shared Content") ∧
    (strContains url "thethinkfit.in/invite" = false →
      strContains url "thethinkfit.in" = false →
      strContains url "document" = false → strContains url "doc" = false →
      strContains url "share" = false → strContains url "shared" = false →
      get_smart_button_text url = "Open Link") := by
  refine ⟨fun h1 => by simp [get_smart_button_text, h1],
          fun h1 h2 => by simp [get_smart_button_text, h1, h2],
          fun h1 h2 h3 => by
            rcases h3 with h3 | h3 <;> simp [get_smart_button_text, h1, h2, h3],
          fun h1 h2 h3 h4 h5 => by
            rcases h5 with h5 | h5 <;> simp [get_smart_button_text, h1, h2, h3, h4, h5],
          fun h1 h2 h3 h4 h5 h6 => by
            simp [get_smart_button_text, h1, h2, h3, h4, h5, h6]⟩

/-- C4 witness: each of the five label rules fires on a concrete link. -/
theorem C4_witness :
    get_smart_button_text "https://app.thethinkfit.in/invite?orgid=1" = "Join ThinkFit" ∧
    get_smart_button_text "https://thethinkfit.in/home" = "Open ThinkFit" ∧
    get_smart_button_text "https://x.com/document/1" = "View Document" ∧
    get_smart_button_text "https://x.com/share/2" = "View Shared Content" ∧
    get_smart_button_text "https://x.com/a" = "Open Link" :=
  ⟨(C4_theorem _).1 (by decide),
   (C4_theorem _).2.1 (by decide) (by decide),
   (C4_theorem _).2.2.1 (by decide) (by decide) (Or.inl (by decide)),
   (C4_theorem _).2.2.2.1 (by decide) (by decide) (by decide) (by decide) (Or.inl (by decide)),
   (C4_theorem _).2.2.2.2 (by decide) (by decide) (by decide) (by decide) (by decide) (by decide)⟩

/-- C5: the green gradient is selected iff the link contains the brand domain
substring, and this co-occurs exactly with the "Join ThinkFit"/"Open ThinkFit"
labels (rules 1 and 2); the ThinkFit labels never appear with the non-brand
palette. -/
theorem C5_theorem (url : String) :
    (gradientFor url = greenGradient ↔ strContains url "thethinkfit.in" = true) ∧
    (gradientFor url = greenGradient ↔
      (get_smart_button_text url = "Join ThinkFit" ∨
        get_smart_button_text url = "Open ThinkFit")) ∧
    ((get_smart_button_text url = "Join ThinkFit" ∨
        get_smart_button_text url = "Open ThinkFit") →
      gradientFor url ≠ purpleGradient) := by
  have hgp : greenGradient ≠ purpleGradient := by decide
  cases hb : strContains url "thethinkfit.in"
  · have hg : gradientFor url = purpleGradient := by simp [gradientFor, hb]
    have hi : strContains url "thethinkfit.in/invite" = false := by
      cases hI : strContains url "thethinkfit.in/invite"
      · rfl
      · have := strContains_trans (by decide : strContains "thethinkfit.in/invite" "thethinkfit.in" = true) hI
        rw [hb] at this
        exact absurd this (by decide)
    have hlabel : ¬(get_smart_button_text url = "Join ThinkFit" ∨
        get_smart_button_text url = "Open ThinkFit") := by
      simp [get_smart_button_text, hi, hb]
      split_ifs <;> decide
    refine ⟨?_, ?_, fun h => absurd h hlabel⟩
    · rw [hg]
      simp [hgp.symm]
    · rw [hg]
      simp [hgp.symm, hlabel]
  · have hg : gradientFor url = greenGradient := by simp [gradientFor, hb]
    have hlabel : get_smart_button_text url = "Join ThinkFit" ∨
        get_smart_button_text url = "Open ThinkFit" := by
      cases hI : strContains url "thethinkfit.in/invite"
      · exact Or.inr (by simp [get_smart_button_text, hI, hb])
      · exact Or.inl (by simp [get_smart_button_text, hI])
    exact ⟨by simp [hg, hb], by simp [hg, hlabel], fun _ => by rw [hg]; exact hgp⟩

/-- C5 witness: a concrete brand link carries a ThinkFit label, so by the
theorem it cannot get the non-brand palette. -/
theorem C5_witness :
    gradientFor "https://thethinkfit.in/x" ≠ purpleGradient :=
  C5_theorem "https://thethinkfit.in/x" |>.2.2 (Or.inr (by decide))

/-- C7: with the provider client unset at startup, every POST /send-email —
whatever the body, even an unparseable one, since the check precedes parsing —
returns 500 with a message containing "not configured" and dispatches nothing,
and GET /health returns 200 reporting the configured flag false. -/
theorem C7_theorem :
    (∀ (body : ReqBody) (provider : Except String Nat),
      send_email false body provider =
        (jsonErr 500 "SendGrid not configured. Please check SENDGRID_API_KEY environment variable.", none)) ∧
    strContains "SendGrid not configured. Please check SENDGRID_API_KEY environment variable."
      "not configured" = true ∧
    health_check false = { http_status := 200, status := "running", sendgrid_configured := false } := by
  exact ⟨fun body provider => rfl, by decide, rfl⟩

/-- C6 counterexample: a request whose body fails JSON parsing is answered with
500 (the decode error propagates to the catch-all `except` handler), not 400
as the claim states. -/
theorem C6_counterexample :
    (send_email true (.malformed "Expecting value: line 1 column 1 (char 0)") (.ok 202)).1 =
      jsonErr 500 "Failed to send email: Expecting value: line 1 column 1 (char 0)" ∧
    (send_email true (.malformed "Expecting value: line 1 column 1 (char 0)") (.ok 202)).1.status ≠ 400 := by
  decide

/-- C6 (amended): a body that parses to a falsy JSON value yields 400
"No JSON data provided"; an absent or unparseable body raises inside
`request.json()` and yields 500 "Failed to send email: <decode error>". -/
theorem C6_theorem :
    (∀ (detail : String) (provider : Except String Nat),
      (send_email true (.malformed detail) provider).1 =
        jsonErr 500 ("Failed to send email: " ++ detail)) ∧
    (∀ (j : Json) (provider : Except String Nat), j.isTruthy = false →
      (send_email true (.parsed j) provider).1 = jsonErr 400 "No JSON data provided") := by
  constructor
  · intro detail provider
    rfl
  · intro j provider h
    simp [send_email, send_email_try, h]

/-- C6 witness: the amended behavior at concrete inputs — a JSON `null` body
gets 400 "No JSON data provided", an unparseable body gets the 500 wrapper. -/
theorem C6_witness :
    (send_email true (.parsed Json.null) (.ok 202)).1 = jsonErr 400 "No JSON data provided" ∧
    (send_email true (.malformed "Expecting value") (.ok 202)).1 =
      jsonErr 500 ("Failed to send email: " ++ "Expecting value") :=
  ⟨C6_theorem.2 Json.null (.ok 202) rfl, C6_theorem.1 "Expecting value" (.ok 202)⟩

/-- C1 counterexample: the empty JSON object `{}` has a missing `from_email`,
yet the response is 400 "No JSON data provided" — a message that does not name
`from_email` — because the falsiness check fires before field validation.  So
the claim does not hold for *every* request body. -/
theorem C1_counterexample :
    (send_email true (.parsed (.obj [])) (.ok 202)).1 = jsonErr 400 "No JSON data provided" ∧
    strContains "No JSON data provided" "from_email" = false := by
  decide

/-- C1 (amended): for every request body parsing to a *non-empty* JSON object
whose `from_email`/`to_email`/`content`/`button_link` entries, where present,
are strings, the validator reports the first failure in the fixed precedence
order — missing/empty `from_email`, then missing/empty `to_email`, then
missing/empty `content` (each field stripped of whitespace before the
emptiness check), then malformed `from_email`, then malformed `to_email` —
each as a 400 response whose message names that field. -/
theorem C1_theorem (o : List (String × Json)) (provider : Except String Nat)
    (hne : o ≠ [])
    (hf : strOrAbsent o "from_email") (ht : strOrAbsent o "to_email")
    (hc : strOrAbsent o "content") (hb : strOrAbsent o "button_link") :
    (strippedField o "from_email" = "" →
      (send_email true (.parsed (.obj o)) provider).1 = jsonErr 400 "from_email is required") ∧
    (strippedField o "from_email" ≠ "" → strippedField o "to_email" = "" →
      (send_email true (.parsed (.obj o)) provider).1 = jsonErr 400 "to_email is required") ∧
    (strippedField o "from_email" ≠ "" → strippedField o "to_email" ≠ "" →
      strippedField o "content" = "" →
      (send_email true (.parsed (.obj o)) provider).1 = jsonErr 400 "content is required") ∧
    (strippedField o "from_email" ≠ "" → strippedField o "to_email" ≠ "" →
      strippedField o "content" ≠ "" →
      validate_email (strippedField o "from_email") = false →
      (send_email true (.parsed (.obj o)) provider).1 = jsonErr 400 "Invalid from_email format") ∧
    (strippedField o "from_email" ≠ "" → strippedField o "to_email" ≠ "" →
      strippedField o "content" ≠ "" →
      validate_email (strippedField o "from_email") = true →
      validate_email (strippedField o "to_email") = false →
      (send_email true (.parsed (.obj o)) provider).1 = jsonErr 400 "Invalid to_email format") := by
  rw [send_email_fields o provider hne hf ht hc hb]
  refine ⟨fun h1 => by simp [sendCore, h1],
          fun h1 h2 => by simp [sendCore, h1, h2],
          fun h1 h2 h3 => by simp [sendCore, h1, h2, h3],
          fun h1 h2 h3 h4 => by simp [sendCore, h1, h2, h3, h4],
          fun h1 h2 h3 h4 h5 => by simp [sendCore, h1, h2, h3, h4, h5]⟩

/-- C1 witness: a body whose `from_email` strips to empty is refused with
400 "from_email is required". -/
theorem C1_witness :
    (send_email true (.parsed (.obj [("from_email", Json.str " ")])) (.ok 202)).1 =
      jsonErr 400 "from_email is required" :=
  (C1_theorem [("from_email", Json.str " ")] (.ok 202) (by simp)
    (Or.inr ⟨" ", rfl⟩) (Or.inl rfl) (Or.inl rfl) (Or.inl rfl)).1 rfl

/-- C2 counterexample: Python's `$` also matches just before a trailing
newline, so `validate_email` accepts `"a@b.co\n"`, a string that does not
match the claimed pattern (its last character is not a letter).  The
"accepts iff matches the fixed pattern" biconditional therefore fails. -/
theorem C2_counterexample :
    validate_email "a@b.co\n" = true ∧ matchesEmailPattern "a@b.co\n".data = false := by
  decide

/-- C2 (amended): `validate_email` accepts a string iff it matches the fixed
pattern — one or more characters from `[a-zA-Z0-9._%+-]`, `@`, one or more
from `[a-zA-Z0-9.-]`, a literal `.`, then two or more letters — or is such a
match followed by a single trailing newline (Python `$` semantics); it rejects
"not-an-email", "a@b" and "@b.com", accepts "a@b.co", and a rejected
`from_email` on an otherwise complete request yields a 400 response. -/
theorem C2_theorem :
    (∀ s : String, validate_email s = true ↔
      (matchesEmailPattern s.data = true ∨
        ∃ t : List Char, s.data = t ++ ['\n'] ∧ matchesEmailPattern t = true)) ∧
    validate_email "not-an-email" = false ∧ validate_email "a@b" = false ∧
    validate_email "@b.com" = false ∧ validate_email "a@b.co" = true ∧
    (∀ (o : List (String × Json)) (provider : Except String Nat),
      o ≠ [] → strOrAbsent o "from_email" → strOrAbsent o "to_email" →
      strOrAbsent o "content" → strOrAbsent o "button_link" →
      strippedField o "from_email" ≠ "" → strippedField o "to_email" ≠ "" →
      strippedField o "content" ≠ "" →
      validate_email (strippedField o "from_email") = false →
      (send_email true (.parsed (.obj o)) provider).1 = jsonErr 400 "Invalid from_email format") := by
  refine ⟨fun s => ?_, by decide, by decide, by decide, by decide,
          fun o provider hne hf ht hc hb h1 h2 h3 h4 => ?_⟩
  · unfold validate_email
    rw [Bool.or_eq_true, Bool.and_eq_true]
    constructor
    · rintro (h | ⟨hlast, hdrop⟩)
      · exact Or.inl h
      · refine Or.inr ⟨s.data.dropLast, ?_, hdrop⟩
        have hne : s.data ≠ [] := by
          rintro h0
          rw [h0] at hlast
          exact absurd hlast (by decide)
        rw [beq_iff_eq] at hlast
        have h2 := List.dropLast_append_getLast hne
        rw [List.getLast_eq_iff_getLast?_eq_some hne |>.mpr hlast] at h2
        exact h2.symm
    · rintro (h | ⟨t, ht, hm⟩)
      · exact Or.inl h
      · refine Or.inr ⟨?_, ?_⟩
        · rw [ht, beq_iff_eq, List.getLast?_concat]
        · rw [ht, List.dropLast_concat]
          exact hm
  · rw [send_email_fields o provider hne hf ht hc hb]
    simp [sendCore, h1, h2, h3, h4]

/-- C2 witness: a complete request with `from_email = "not-an-email"` is
refused with 400 "Invalid from_email format". -/
theorem C2_witness :
    (send_email true
      (.parsed (.obj [("from_email", Json.str "not-an-email"),
        ("to_email", Json.str "a@b.co"), ("content", Json.str "hi")])) (.ok 202)).1 =
      jsonErr 400 "Invalid from_email format" :=
  C2_theorem.2.2.2.2.2
    [("from_email", Json.str "not-an-email"), ("to_email", Json.str "a@b.co"),
      ("content", Json.str "hi")] (.ok 202) (by simp)
    (Or.inr ⟨"not-an-email", rfl⟩) (Or.inr ⟨"a@b.co", rfl⟩) (Or.inr ⟨"hi", rfl⟩)
    (Or.inl rfl) (by decide) (by decide) (by decide) (by decide)

/-- C3 counterexample: the code's check is the *prefix* `'http'`, not an
HTTP(S) scheme.  `"httpz://evil.com"` does not start with an HTTP(S) scheme,
yet it is kept: the success response reports `has_button = true` and a button
block is rendered. -/
theorem C3_counterexample :
    hasHttpScheme "httpz://evil.com" = false ∧
    (send_email true
      (.parsed (.obj [("from_email", Json.str "a@b.co"), ("to_email", Json.str "c@d.co"),
        ("content", Json.str "hi"), ("button_link", Json.str "httpz://evil.com")]))
      (.ok 202)).1.data =
      some { from_email := "a@b.co", to_email := "c@d.co", has_button := true,
             status_code := 202 } ∧
    button_html "httpz://evil.com" ≠ "" := by
  refine ⟨by decide, by decide, ?_⟩
  decide

/-- C3 (amended): a stripped `button_link` is treated as absent iff it is
empty or does not start with the *prefix* `"http"` (not: an HTTP(S) scheme);
the button block is rendered iff the effective link is non-empty; and on a
valid request the success response is built from the effective link, so
`has_button` is true exactly when the effective link survived. -/
theorem C3_theorem :
    (∀ b : String, effectiveLink b = "" ↔ (b = "" ∨ pyStartswith b "http" = false)) ∧
    (∀ b : String, button_html b = "" ↔ b = "") ∧
    (∀ (o : List (String × Json)) (code : Nat),
      o ≠ [] → strOrAbsent o "from_email" → strOrAbsent o "to_email" →
      strOrAbsent o "content" → strOrAbsent o "button_link" →
      strippedField o "from_email" ≠ "" → strippedField o "to_email" ≠ "" →
      strippedField o "content" ≠ "" →
      validate_email (strippedField o "from_email") = true →
      validate_email (strippedField o "to_email") = true →
      send_email true (.parsed (.obj o)) (.ok code) =
        (successResponse (strippedField o "from_email") (strippedField o "to_email")
          (effectiveLink (strippedField o "button_link")) code,
         some (mkMail (strippedField o "from_email") (strippedField o "to_email")
          (strippedField o "content") (effectiveLink (strippedField o "button_link"))))) := by
  refine ⟨fun b => ?_, fun b => ?_, fun o code hne hf ht hc hb h1 h2 h3 h4 h5 => ?_⟩
  · unfold effectiveLink
    rcases hB : pyStartswith b "http" with _ | _ <;> by_cases hE : b = "" <;>
      simp [hE, hB]
  · unfold button_html
    by_cases hE : b = ""
    · simp [hE]
    · rw [if_neg hE]
      refine ⟨fun h => ?_, fun h => absurd h hE⟩
      have hd := congrArg String.data h
      simp only [string_data_append, List.append_eq_nil] at hd
      exact absurd hd.2 (by decide)
  · rw [send_email_fields o (.ok code) hne hf ht hc hb,
      sendCore_success _ _ _ _ _ h1 h2 h3 h4 h5]

/-- C3 witness: the spec's own example — `button_link = "ftp://x.com"` on an
otherwise valid request is treated as absent: the success response carries an
empty effective link (`has_button` false) and the empty link renders no button
block. -/
theorem C3_witness :
    send_email true
      (.parsed (.obj [("from_email", Json.str "a@b.co"), ("to_email", Json.str "c@d.co"),
        ("content", Json.str "hi"), ("button_link", Json.str "ftp://x.com")])) (.ok 202) =
      (successResponse "a@b.co" "c@d.co" "" 202, some (mkMail "a@b.co" "c@d.co" "hi" "")) ∧
    button_html "" = "" :=
  ⟨C3_theorem.2.2 [("from_email", Json.str "a@b.co"), ("to_email", Json.str "c@d.co"),
      ("content", Json.str "hi"), ("button_link", Json.str "ftp://x.com")] 202 (by simp)
      (Or.inr ⟨"a@b.co", rfl⟩) (Or.inr ⟨"c@d.co", rfl⟩) (Or.inr ⟨"hi", rfl⟩)
      (Or.inr ⟨"ftp://x.com", rfl⟩) (by decide) (by decide) (by decide) (by decide) (by decide),
   (C3_theorem.2.1 "").mpr rfl⟩

/-- Any mail occurring in a result of the handler body was built by `mkMail`,
whose tracking settings are `disabledTracking`. -/
theorem send_email_try_tracking (sgc : Bool) (body : ReqBody) (provider : Except String Nat) :
    ∀ mail : Mail,
      ((∃ e, send_email_try sgc body provider = .error (e, some mail)) ∨
       (∃ r, send_email_try sgc body provider = .ok (r, some mail))) →
      mail.tracking_settings = disabledTracking := by
  intro mail h
  unfold send_email_try at h
  rcases h with ⟨e, h⟩ | ⟨r, h⟩ <;>
    (repeat' split at h) <;>
    simp_all [mkMail, disabledTracking] <;>
    (obtain ⟨-, rfl⟩ := h; rfl)

/-- C8: every message object handed to the provider's send call — whatever
the request and whether the provider call succeeds or raises — has click
tracking (both flags) and open tracking explicitly disabled. -/
theorem C8_theorem (sgc : Bool) (body : ReqBody) (provider : Except String Nat) (mail : Mail)
    (h : (send_email sgc body provider).2 = some mail) :
    mail.tracking_settings.click_tracking.enable = false ∧
    mail.tracking_settings.click_tracking.enable_text = false ∧
    mail.tracking_settings.open_tracking.enable = false := by
  have hts : mail.tracking_settings = disabledTracking := by
    unfold send_email at h
    rcases htry : send_email_try sgc body provider with ⟨e, m⟩ | ⟨resp, m⟩ <;>
      rw [htry] at h <;> simp at h
    · exact send_email_try_tracking sgc body provider mail (Or.inl ⟨e, by rw [htry, h]⟩)
    · exact send_email_try_tracking sgc body provider mail (Or.inr ⟨resp, by rw [htry, h]⟩)
  rw [hts]
  exact ⟨rfl, rfl, rfl⟩

/-- C8 witness: the mail dispatched for a concrete valid request has all
tracking flags disabled. -/
theorem C8_witness :
    (mkMail "a@b.co" "c@d.co" "hi" "").tracking_settings.click_tracking.enable = false ∧
    (mkMail "a@b.co" "c@d.co" "hi" "").tracking_settings.click_tracking.enable_text = false ∧
    (mkMail "a@b.co" "c@d.co" "hi" "").tracking_settings.open_tracking.enable = false :=
  C8_theorem true
    (.parsed (.obj [("from_email", Json.str "a@b.co"), ("to_email", Json.str "c@d.co"),
      ("content", Json.str "hi")])) (.ok 202)
    (mkMail "a@b.co" "c@d.co" "hi" "") rfl

/-- Stripping the fixed wrapper from a rendered body recovers exactly the
newline-converted content. -/
theorem stripWrapper_create (c b : String) :
    stripWrapper (create_email_with_button c b) b = nl2br c := by
  unfold stripWrapper create_email_with_button
  have hd : (htmlPre ++ nl2br c ++ wrapSuffix b).data =
      htmlPre.data ++ ((nl2br c).data ++ (wrapSuffix b).data) := by
    rw [string_data_append, string_data_append, List.append_assoc]
  rw [hd, List.drop_left]
  have hlen : (htmlPre.data ++ ((nl2br c).data ++ (wrapSuffix b).data)).length -
      htmlPre.data.length - (wrapSuffix b).data.length = (nl2br c).data.length := by
    simp [List.length_append]
  rw [hlen, List.take_left]

/-- The newline conversion leaves newline-free lists unchanged. -/
theorem replaceNl_id (l : List Char) (h : ∀ c ∈ l, c ≠ '\n') : replaceNl l = l := by
  induction l with
  | nil => rfl
  | cons c rest ih =>
    simp only [replaceNl, if_neg (h c (List.mem_cons_self c rest)), List.singleton_append,
      List.cons.injEq, true_and]
    exact ih fun x hx => h x (List.mem_cons_of_mem c hx)

/-- C9: for every valid request, the dispatched body's content region — the
rendered HTML with the fixed wrapper stripped — is exactly `nl2br` of the
trimmed input content, with no truncation or re-encoding: `nl2br` rewrites
each `'\n'` to `"<br>"` and is the identity on newline-free content, which is
otherwise passed through unescaped. -/
theorem C9_theorem (o : List (String × Json)) (code : Nat)
    (hne : o ≠ []) (hf : strOrAbsent o "from_email") (ht : strOrAbsent o "to_email")
    (hc : strOrAbsent o "content") (hb : strOrAbsent o "button_link")
    (h1 : strippedField o "from_email" ≠ "") (h2 : strippedField o "to_email" ≠ "")
    (h3 : strippedField o "content" ≠ "")
    (h4 : validate_email (strippedField o "from_email") = true)
    (h5 : validate_email (strippedField o "to_email") = true) :
    ∃ mail : Mail, (send_email true (.parsed (.obj o)) (.ok code)).2 = some mail ∧
      stripWrapper mail.content (effectiveLink (strippedField o "button_link")) =
        nl2br (strippedField o "content") ∧
      ((∀ ch ∈ (strippedField o "content").data, ch ≠ '\n') →
        nl2br (strippedField o "content") = strippedField o "content") := by
  refine ⟨mkMail (strippedField o "from_email") (strippedField o "to_email")
    (strippedField o "content") (effectiveLink (strippedField o "button_link")), ?_, ?_, ?_⟩
  · rw [send_email_fields o (.ok code) hne hf ht hc hb,
      sendCore_success _ _ _ _ _ h1 h2 h3 h4 h5]
  · exact stripWrapper_create _ _
  · intro hnl
    unfold nl2br
    rw [replaceNl_id _ hnl]

/-- C9 witness: round trip at a concrete request — stripping the wrapper from
the dispatched body returns the content, unchanged since it has no newline. -/
theorem C9_witness :
    ∃ mail : Mail,
      (send_email true (.parsed (.obj [("from_email", Json.str "a@b.co"),
        ("to_email", Json.str "c@d.co"), ("content", Json.str "hi there")])) (.ok 202)).2 =
        some mail ∧
      stripWrapper mail.content "" = nl2br "hi there" ∧
      ((∀ ch ∈ ("hi there" : String).data, ch ≠ '\n') → nl2br "hi there" = "hi there") :=
  C9_theorem [("from_email", Json.str "a@b.co"), ("to_email", Json.str "c@d.co"),
      ("content", Json.str "hi there")] 202 (by simp)
    (Or.inr ⟨"a@b.co", rfl⟩) (Or.inr ⟨"c@d.co", rfl⟩) (Or.inr ⟨"hi there", rfl⟩)
    (Or.inl rfl) (by decide) (by decide) (by decide) (by decide) (by decide)

/-- C10 counterexample: a falsy non-object body — the empty array — gets the
400 "No JSON data provided" response, not the claimed 500 catch-all. -/
theorem C10_counterexample :
    (send_email true (.parsed (.arr [])) (.ok 202)).1 = jsonErr 400 "No JSON data provided" ∧
    (send_email true (.parsed (.arr [])) (.ok 202)).1.status ≠ 500 := by
  decide

/-- C10 (amended): a body parsing to a *truthy* non-object raises on `.get`,
and a truthy object with any of the four fields present but non-string raises
on `.strip`; in both cases the catch-all handler answers 500 with
`success = false` and a message beginning "Failed to send email: ".  (A falsy
non-object body instead gets 400 "No JSON data provided".) -/
theorem C10_theorem :
    (∀ (j : Json) (provider : Except String Nat), j.isTruthy = true →
      (∀ o, j ≠ .obj o) →
      (send_email true (.parsed j) provider).1 =
        jsonErr 500 ("Failed to send email: " ++
          ("\x27" ++ j.typeName ++ "\x27 object has no attribute \x27get\x27"))) ∧
    (∀ (o : List (String × Json)) (provider : Except String Nat),
      (badField o "from_email" ∨ badField o "to_email" ∨ badField o "content" ∨
        badField o "button_link") →
      (send_email true (.parsed (.obj o)) provider).1.status = 500 ∧
      (send_email true (.parsed (.obj o)) provider).1.success = false ∧
      pyStartswith (send_email true (.parsed (.obj o)) provider).1.message
        "Failed to send email: " = true) := by
  constructor
  · intro j provider htru hobj
    cases j
    case obj o => exact absurd rfl (hobj o)
    case null => exact absurd htru (by decide)
    all_goals
      simp [send_email, send_email_try, htru, getStripped, Json.typeName,
        excResponse, jsonErr]
    all_goals rfl
  · intro o provider hbad
    have hne : o ≠ [] := by
      rcases hbad with ⟨v, hv, -⟩ | ⟨v, hv, -⟩ | ⟨v, hv, -⟩ | ⟨v, hv, -⟩ <;>
        exact ne_nil_of_jlookup hv
    rw [send_email_unfold_obj o provider hne]
    rcases hg1 : getStripped (Json.obj o) "from_email" with e1 | f1 <;> simp only [hg1]
    · exact ⟨rfl, rfl, pyStartswith_append _ _⟩
    rcases hg2 : getStripped (Json.obj o) "to_email" with e2 | f2 <;> simp only [hg2]
    · exact ⟨rfl, rfl, pyStartswith_append _ _⟩
    rcases hg3 : getStripped (Json.obj o) "content" with e3 | f3 <;> simp only [hg3]
    · exact ⟨rfl, rfl, pyStartswith_append _ _⟩
    rcases hg4 : getStripped (Json.obj o) "button_link" with e4 | f4 <;> simp only [hg4]
    · exact ⟨rfl, rfl, pyStartswith_append _ _⟩
    exfalso
    rcases hbad with hB | hB | hB | hB
    exacts [not_badField_of_ok hg1 hB, not_badField_of_ok hg2 hB,
      not_badField_of_ok hg3 hB, not_badField_of_ok hg4 hB]

/-- C10 witness: a truthy non-object body (the string `"x"`) and an object
body whose `from_email` is the number 5 both produce the 500 catch-all. -/
theorem C10_witness :
    (send_email true (.parsed (.str "x")) (.ok 202)).1 =
      jsonErr 500 ("Failed to send email: " ++
        ("\x27str\x27 object has no attribute \x27get\x27")) ∧
    ((send_email true (.parsed (.obj [("from_email", Json.num 5)])) (.ok 202)).1.status = 500 ∧
      (send_email true (.parsed (.obj [("from_email", Json.num 5)])) (.ok 202)).1.success = false ∧
      pyStartswith
        (send_email true (.parsed (.obj [("from_email", Json.num 5)])) (.ok 202)).1.message
        "Failed to send email: " = true) :=
  ⟨C10_theorem.1 (.str "x") (.ok 202) rfl (fun o h => Json.noConfusion h),
   C10_theorem.2 [("from_email", Json.num 5)] (.ok 202)
     (Or.inl ⟨Json.num 5, rfl, fun s h => Json.noConfusion h⟩)⟩

end TCfit
